import Mathlib

/-!
Verification of the vehicle dynamics and control stack of `highway/vehicle.py`.

The embedding works over the rationals.  Transcendental primitives that the
source takes from `numpy` (`cos`, `sin`, `tan`, `arctan`, `exp`, `sqrt`, `pi`)
and the two helpers of the absent `highway.utils` module whose exact values no
claim depends on (`wrap_to_pi`, `do_every`) are abstracted into a structure
`MathOps` of rational-valued functions; every theorem is quantified over all
interpretations, so each proved property holds in particular for the real
numpy semantics.  The `Road` and `Lane` collaborators (external to the module,
specified only at their interface) are likewise structures of functions.
-/

/-- The command pair stored by `Vehicle.act`: `{'steering': .., 'acceleration': ..}`. -/
structure Cmd where
  steering : ℚ
  acceleration : ℚ
deriving Repr, DecidableEq

/-- A lane collaborator, as consumed by the module: local-coordinate projection,
heading lookup, and reachability test. -/
structure Lane where
  local_coordinates : ℚ × ℚ → ℚ × ℚ
  heading_at : ℚ → ℚ
  is_reachable_from : ℚ × ℚ → Bool

/-- Abstract interpretation of the numeric primitives used by the source:
numpy transcendental functions, plus the `highway.utils` helpers `wrap_to_pi`
and `do_every` and the `not_zero` floor `eps`, none of which are in the
source tree.  All theorems hold for every interpretation. -/
structure MathOps where
  eps : ℚ
  pi : ℚ
  sqrt : ℚ → ℚ
  cos : ℚ → ℚ
  sin : ℚ → ℚ
  tan : ℚ → ℚ
  arctan : ℚ → ℚ
  exp : ℚ → ℚ
  wrap_to_pi : ℚ → ℚ
  do_every : ℚ → ℚ → Bool

/-- The mutable state of a vehicle object.  One record serves all classes of
the hierarchy (`Vehicle`, `ControlledVehicle`, `MDPVehicle`, `IDMVehicle`);
fields a given class never touches are simply carried along.  `length` and
`width` model the per-class constants `LENGTH` and `WIDTH` (5 and 2 for every
class in the file; `Obstacle` overrides `LENGTH` per instance). -/
structure VehState where
  position : ℚ × ℚ
  heading : ℚ
  steering_angle : ℚ
  velocity : ℚ
  lane_index : ℤ
  lane : Lane
  color : ℕ × ℕ × ℕ
  action : Cmd
  crashed : Bool
  target_lane_index : ℤ
  target_velocity : ℚ
  velocity_index : ℤ
  timer : ℚ
  length : ℚ
  width : ℚ

/-- The road collaborator interface consumed by the module: lane count,
lane lookup by index, lane index from a position, and the neighbour query
returning the nearest vehicle ahead and behind in a given lane (current lane
when `none`). -/
structure Road where
  lane_count : ℕ
  lane_at : ℤ → Lane
  get_lane_index : ℚ × ℚ → ℤ
  neighbour_vehicles : VehState → Option Lane → Option VehState × Option VehState

/-- High-level intents accepted by `ControlledVehicle.act` / `MDPVehicle.act`.
Any other argument (including `None`) falls through every branch; it is
modelled by `Option Intent` with `none`. -/
inductive Intent where
  | FASTER
  | SLOWER
  | LANE_RIGHT
  | LANE_LEFT
deriving Repr, DecidableEq

/-- Modelled from the spec: `highway.utils.not_zero`, absent from the source
tree — "velocity near zero is floored in denominators (a `not_zero` guard) to
avoid division blow-up".  Values of magnitude above `eps` pass unchanged;
near-zero values are floored to `±eps`. -/
def not_zero (eps x : ℚ) : ℚ :=
  if eps < |x| then x else if 0 ≤ x then eps else -eps

/-- Modelled from the spec: `highway.utils.constrain`, absent from the source
tree — clamp a value to an interval (spec: "clamped", "clamp the final
acceleration to `[-brake_max, acc_max]`"). -/
def constrain (x a b : ℚ) : ℚ :=
  min (max x a) b

/-- Modelled from the spec: `highway.utils.constrain` applied to integer
quantities (the `velocity_index` clamp and the adjacent-lane-index clamp). -/
def constrainInt (x a b : ℤ) : ℤ :=
  min (max x a) b

/-- `numpy.round`: round half to even (numpy's documented banker's rounding),
returning an integer. -/
def np_round (x : ℚ) : ℤ :=
  if x - ⌊x⌋ < 1/2 then ⌊x⌋
  else if 1/2 < x - ⌊x⌋ then ⌊x⌋ + 1
  else if Even ⌊x⌋ then ⌊x⌋ else ⌊x⌋ + 1

/-- `numpy.sign` on rationals. -/
def npsign (x : ℚ) : ℚ :=
  if x < 0 then -1 else if x = 0 then 0 else 1

namespace Vehicle

/-- `Vehicle.ENABLE_CRASHES`. -/
def ENABLE_CRASHES : Bool := true

/-- `Vehicle.LENGTH` [m]. -/
def LENGTH : ℚ := 5

/-- `Vehicle.WIDTH` [m]. -/
def WIDTH : ℚ := 2

/-- `Vehicle.STEERING_TAU` [s]. -/
def STEERING_TAU : ℚ := 1/5

/-- `Vehicle.RED`. -/
def RED : ℕ × ℕ × ℕ := (255, 100, 100)

/-- `Vehicle.step(dt)`: one explicit-Euler integration of the bicycle model,
translated line by line.  The two `np.random.beta(0.5, 0.5)` draws used when
the vehicle is crashed are passed in as `rand_steer` and `rand_acc`.  The
final two lines refresh `lane_index` and `lane` from the road using the new
position. -/
def step (m : MathOps) (rd : Road) (rand_steer rand_acc : ℚ) (dt : ℚ)
    (s : VehState) : VehState :=
  let act : Cmd :=
    if s.crashed then
      { steering := m.pi / 4 * (-1 + 2 * rand_steer),
        acceleration := (-1 + 1/5 * rand_acc) * s.velocity }
    else s.action
  let v : ℚ × ℚ := (s.velocity * m.cos s.heading, s.velocity * m.sin s.heading)
  let position := (s.position.1 + v.1 * dt, s.position.2 + v.2 * dt)
  let heading := s.heading + s.velocity * s.steering_angle / LENGTH * dt
  let steering_angle :=
    s.steering_angle + 1 / STEERING_TAU * (m.tan act.steering - s.steering_angle) * dt
  let velocity := s.velocity + act.acceleration * dt
  let lane_index := rd.get_lane_index position
  { s with
    action := act
    position := position
    heading := heading
    steering_angle := steering_angle
    velocity := velocity
    lane_index := lane_index
    lane := rd.lane_at lane_index }

/-- `Vehicle.lane_distance_to_vehicle(vehicle)` for a present other vehicle:
difference of longitudinal lane coordinates under the current lane's
projection.  (The source returns `np.nan` when the argument is `None`; every
call site in the model guards the option first, matching the source's
truthiness checks.) -/
def lane_distance_to_vehicle (s other : VehState) : ℚ :=
  (s.lane.local_coordinates other.position).1 - (s.lane.local_coordinates s.position).1

/-- `Vehicle.check_collision(other)`, returning the updated pair
`(self, other)`.  The Python identity test `other is self` is modelled by the
boolean `same`, supplied by the caller (object identity is not derivable from
field values). -/
def check_collision (m : MathOps) (same : Bool) (s other : VehState) :
    VehState × VehState :=
  if ¬ ENABLE_CRASHES then (s, other)
  else if same then (s, other)
  else if m.sqrt ((s.position.1 - other.position.1) ^ 2 +
                  (s.position.2 - other.position.2) ^ 2) <
          s.width / 2 + other.width / 2 then
    ({ s with crashed := true, color := RED },
     { other with crashed := true, color := RED })
  else (s, other)

end Vehicle

namespace ControlledVehicle

/-- `ControlledVehicle.TAU_A` [s]. -/
def TAU_A : ℚ := 1/10

/-- `ControlledVehicle.TAU_DS` [s]. -/
def TAU_DS : ℚ := 3/10

/-- `ControlledVehicle.KP_A = 1 / TAU_A`. -/
def KP_A : ℚ := 1 / TAU_A

/-- `ControlledVehicle.KD_S = 1 / TAU_DS`. -/
def KD_S : ℚ := 1 / TAU_DS

/-- `ControlledVehicle.KP_S` [1/m]. -/
def KP_S : ℚ := 1/20

/-- `ControlledVehicle.STEERING_VEL_GAIN` [m/s]. -/
def STEERING_VEL_GAIN : ℚ := 60

/-- `ControlledVehicle.MAX_STEERING_ANGLE = np.pi / 4` [rad]. -/
def MAX_STEERING_ANGLE (m : MathOps) : ℚ := m.pi / 4

/-- `ControlledVehicle.steering_control(target_lane_index)`: heading controller
cascaded with a lateral position controller, translated line by line. -/
def steering_control (m : MathOps) (rd : Road) (s : VehState)
    (target_lane_index : ℤ) : ℚ :=
  let lane := rd.lane_at target_lane_index
  let lane_coords := lane.local_coordinates s.position
  let lane_next_coords := lane_coords.1 + s.velocity * (TAU_DS + Vehicle.STEERING_TAU)
  let lane_future_heading := lane.heading_at lane_next_coords
  let heading_ref := lane_future_heading -
    m.arctan (KP_S * lane_coords.2 * npsign s.velocity *
      m.exp (-(s.velocity / STEERING_VEL_GAIN) ^ 2))
  let steering := KD_S * m.wrap_to_pi (heading_ref - s.heading) * Vehicle.LENGTH /
    not_zero m.eps s.velocity
  constrain steering (-(MAX_STEERING_ANGLE m)) (MAX_STEERING_ANGLE m)

/-- `ControlledVehicle.velocity_control(target_velocity)`: proportional law. -/
def velocity_control (s : VehState) (target_velocity : ℚ) : ℚ :=
  KP_A * (target_velocity - s.velocity)

/-- `ControlledVehicle.act(action)`: resolve a high-level intent into the
target state, then always recompute and store a fresh low-level command via
`Vehicle.act` (the stored dict is non-empty, hence truthy, hence stored). -/
def act (m : MathOps) (rd : Road) (a : Option Intent) (s : VehState) : VehState :=
  let s₁ : VehState :=
    match a with
    | some .FASTER => { s with target_velocity := s.target_velocity + 5 }
    | some .SLOWER => { s with target_velocity := s.target_velocity - 5 }
    | some .LANE_RIGHT =>
        let target_lane_index := s.lane_index + 1
        if target_lane_index < (rd.lane_count : ℤ) ∧
            (rd.lane_at target_lane_index).is_reachable_from s.position = true then
          { s with target_lane_index := target_lane_index }
        else s
    | some .LANE_LEFT =>
        let target_lane_index := s.lane_index - 1
        if 0 ≤ target_lane_index ∧
            (rd.lane_at target_lane_index).is_reachable_from s.position = true then
          { s with target_lane_index := target_lane_index }
        else s
    | none => s
  { s₁ with
    action := { steering := steering_control m rd s₁ s₁.target_lane_index,
                acceleration := velocity_control s₁ s₁.target_velocity } }

end ControlledVehicle

/-- The class constants of `MDPVehicle` (`SPEED_COUNT`, `SPEED_MIN`,
`SPEED_MAX`), gathered into a parameter record because they are dispatched
through `cls` in the source and the spec discusses both the `SPEED_COUNT == 1`
and `SPEED_COUNT > 1` regimes. -/
structure MDPParams where
  SPEED_COUNT : ℕ
  SPEED_MIN : ℚ
  SPEED_MAX : ℚ
deriving Repr, DecidableEq

/-- The constant values in the source: `SPEED_COUNT = 1`, `SPEED_MIN = 25`,
`SPEED_MAX = 35`. -/
def MDPParams.default : MDPParams := ⟨1, 25, 35⟩

namespace MDPVehicle

/-- `MDPVehicle.index_to_speed(index)`: linear interpolation between
`SPEED_MIN` and `SPEED_MAX` when `SPEED_COUNT > 1`, else `SPEED_MIN`. -/
def index_to_speed (p : MDPParams) (index : ℤ) : ℚ :=
  if 1 < p.SPEED_COUNT then
    p.SPEED_MIN + index * (p.SPEED_MAX - p.SPEED_MIN) / ((p.SPEED_COUNT : ℚ) - 1)
  else
    p.SPEED_MIN

/-- `MDPVehicle.speed_to_index(speed)`: index of the closest allowed speed,
via `np.int(np.round(x * (SPEED_COUNT - 1)))`. -/
def speed_to_index (p : MDPParams) (speed : ℚ) : ℤ :=
  let x := (speed - p.SPEED_MIN) / (p.SPEED_MAX - p.SPEED_MIN)
  np_round (x * ((p.SPEED_COUNT : ℚ) - 1))

/-- `MDPVehicle.act(action)`: speed intents re-index from the index of the
*current* velocity (`self.speed_to_index(self.velocity) ± 1`); lane intents
are as in `ControlledVehicle`; then the index is clamped, `target_velocity`
is recomputed, and `super().act()` runs the low-level control with no
intent. -/
def act (p : MDPParams) (m : MathOps) (rd : Road) (a : Option Intent)
    (s : VehState) : VehState :=
  let s₁ : VehState :=
    match a with
    | some .FASTER => { s with velocity_index := speed_to_index p s.velocity + 1 }
    | some .SLOWER => { s with velocity_index := speed_to_index p s.velocity - 1 }
    | some .LANE_RIGHT =>
        let target_lane_index := s.lane_index + 1
        if target_lane_index < (rd.lane_count : ℤ) ∧
            (rd.lane_at target_lane_index).is_reachable_from s.position = true then
          { s with target_lane_index := target_lane_index }
        else s
    | some .LANE_LEFT =>
        let target_lane_index := s.lane_index - 1
        if 0 ≤ target_lane_index ∧
            (rd.lane_at target_lane_index).is_reachable_from s.position = true then
          { s with target_lane_index := target_lane_index }
        else s
    | none => s
  let s₂ := { s₁ with
    velocity_index := constrainInt s₁.velocity_index 0 ((p.SPEED_COUNT : ℤ) - 1) }
  let s₃ := { s₂ with target_velocity := index_to_speed p s₂.velocity_index }
  ControlledVehicle.act m rd none s₃

end MDPVehicle

namespace IDMVehicle

/-- `IDMVehicle.ACC_MAX` [m/s²]. -/
def ACC_MAX : ℚ := 3

/-- `IDMVehicle.BRAKE_ACC` [m/s²]. -/
def BRAKE_ACC : ℚ := 5

/-- `IDMVehicle.DISTANCE_WANTED` [m]. -/
def DISTANCE_WANTED : ℚ := 5

/-- `IDMVehicle.TIME_WANTED` [s]. -/
def TIME_WANTED : ℚ := 1

/-- `IDMVehicle.DELTA` — the source value `4.0` is an integer-valued float
used only as an exponent, so it is embedded as the natural exponent 4. -/
def DELTA : ℕ := 4

/-- `IDMVehicle.POLITENESS`. -/
def POLITENESS : ℚ := 0

/-- `IDMVehicle.LANE_CHANGE_MIN_ACC_GAIN` [m/s²]. -/
def LANE_CHANGE_MIN_ACC_GAIN : ℚ := 1/5

/-- `IDMVehicle.LANE_CHANGE_MAX_BRAKING_IMPOSED` [m/s²]. -/
def LANE_CHANGE_MAX_BRAKING_IMPOSED : ℚ := 2

/-- `IDMVehicle.LANE_CHANGE_DELAY` [s]. -/
def LANE_CHANGE_DELAY : ℚ := 1

/-- `IDMVehicle.idm(ego_vehicle, front_vehicle)`: free-road acceleration
`ACC_MAX * (1 - (v / not_zero(v_target))^DELTA)` minus, when a front vehicle
is present, the gap braking term `ACC_MAX * (d_star / not_zero(d))^2`.
The `if not ego_vehicle` / `if front_vehicle` truthiness tests of the source
become matches on the options. -/
def idm (m : MathOps) (ego_vehicle front_vehicle : Option VehState) : ℚ :=
  match ego_vehicle with
  | none => 0
  | some ego =>
      let acceleration := ACC_MAX *
        (1 - (ego.velocity / not_zero m.eps ego.target_velocity) ^ DELTA)
      match front_vehicle with
      | none => acceleration
      | some front =>
          let d0 := DISTANCE_WANTED
          let tau := TIME_WANTED
          let ab := ACC_MAX * BRAKE_ACC
          let d := Vehicle.lane_distance_to_vehicle ego front -
            ego.length / 2 - front.length / 2
          let dv := ego.velocity - front.velocity
          let d_star := d0 + ego.velocity * tau +
            ego.velocity * dv / (2 * m.sqrt ab)
          acceleration - ACC_MAX * (d_star / not_zero m.eps d) ^ 2

/-- `IDMVehicle.mobil(lane_index)`: reject if the lane is unreachable; reject
if the predicted IDM acceleration of the new-lane follower (with the ego
vehicle inserted as its front vehicle) is below
`-LANE_CHANGE_MAX_BRAKING_IMPOSED`; otherwise accept only if the
politeness-weighted jerk reaches `LANE_CHANGE_MIN_ACC_GAIN`. -/
def mobil (m : MathOps) (rd : Road) (s : VehState) (lane_index : ℤ) : Bool :=
  if ¬ ((rd.lane_at lane_index).is_reachable_from s.position = true) then false
  else
    let nb := rd.neighbour_vehicles s (some (rd.lane_at lane_index))
    let new_preceding := nb.1
    let new_following := nb.2
    let new_following_a := idm m new_following new_preceding
    let new_following_pred_a := idm m new_following (some s)
    if new_following_pred_a < -LANE_CHANGE_MAX_BRAKING_IMPOSED then false
    else
      let ob := rd.neighbour_vehicles s none
      let old_preceding := ob.1
      let old_following := ob.2
      let self_a := idm m (some s) old_preceding
      let self_pred_a := idm m (some s) new_preceding
      let old_following_a := idm m old_following (some s)
      let old_following_pred_a := idm m old_following old_preceding
      let jerk := self_pred_a - self_a + POLITENESS *
        (new_following_pred_a - new_following_a +
         old_following_pred_a - old_following_a)
      if jerk < LANE_CHANGE_MIN_ACC_GAIN then false
      else true

/-- The predicted IDM acceleration of the new-lane follower with the ego
vehicle `s` inserted ahead of it, exactly as computed inside `mobil`. -/
def new_following_pred_a (m : MathOps) (rd : Road) (s : VehState)
    (lane_index : ℤ) : ℚ :=
  idm m (rd.neighbour_vehicles s (some (rd.lane_at lane_index))).2 (some s)

/-- `IDMVehicle.change_lane_policy()`: gated by `utils.do_every` on the
timer; on firing, reset the timer and consider both adjacent lane indices
(clamped to the valid range) in order `[-1, +1]`, adopting each one that
differs from the current target and passes `mobil`.  The second iteration of
the source's `for` loop sees the target possibly updated by the first, which
the sequential lets reproduce. -/
def change_lane_policy (m : MathOps) (rd : Road) (s : VehState) : VehState :=
  if ¬ (m.do_every LANE_CHANGE_DELAY s.timer = true) then s
  else
    let s₀ := { s with timer := 0 }
    let l₀ := constrainInt (rd.get_lane_index s₀.position - 1) 0 ((rd.lane_count : ℤ) - 1)
    let l₁ := constrainInt (rd.get_lane_index s₀.position + 1) 0 ((rd.lane_count : ℤ) - 1)
    let s₁ := if l₀ ≠ s₀.target_lane_index ∧ mobil m rd s₀ l₀ = true then
        { s₀ with target_lane_index := l₀ } else s₀
    let s₂ := if l₁ ≠ s₁.target_lane_index ∧ mobil m rd s₁ l₁ = true then
        { s₁ with target_lane_index := l₁ } else s₁
    s₂

/-- Every name an `IDMVehicle` object can resolve: instance attributes set
along the `__init__` chain (`Vehicle.__init__`, `ControlledVehicle.__init__`,
`IDMVehicle.__init__`), the class-level constants of `Vehicle`,
`ControlledVehicle` and `IDMVehicle`, and the methods of those classes.
`controller`, `CONTROLLER_IDM` and `CONTROLLER_MAX_VELOCITY` appear nowhere
in the source. -/
def attributeNames : List String :=
  ["road", "position", "heading", "steering_angle", "velocity", "lane_index",
   "lane", "color", "action", "crashed", "target_lane_index", "target_velocity",
   "timer",
   "ENABLE_CRASHES", "LENGTH", "WIDTH", "STEERING_TAU", "DEFAULT_VELOCITIES",
   "RED", "GREEN", "BLUE", "YELLOW", "BLACK", "DEFAULT_COLOR", "EGO_COLOR",
   "TAU_A", "TAU_DS", "KP_A", "KD_S", "KP_S", "MAX_STEERING_ANGLE",
   "STEERING_VEL_GAIN",
   "IDM_COLOR", "ACC_MAX", "BRAKE_ACC", "VELOCITY_WANTED", "DISTANCE_WANTED",
   "TIME_WANTED", "DELTA", "POLITENESS", "LANE_CHANGE_MIN_ACC_GAIN",
   "LANE_CHANGE_MAX_BRAKING_IMPOSED", "LANE_CHANGE_DELAY",
   "create_random", "create_from", "act", "step", "lane_distance_to_vehicle",
   "handle_event", "check_collision", "display", "display_trajectory",
   "steering_control", "velocity_control", "idm", "maximum_velocity",
   "change_lane_policy", "mobil", "recover_from_stop"]

/-- `IDMVehicle.act(action)`: after the lateral policy and the steering
computation, the source evaluates `self.controller == self.CONTROLLER_IDM`;
the attribute lookup of `controller` (checked against every name the object
can resolve) fails, so the call raises `AttributeError` before any
acceleration is computed or any command is issued.  The raised exception is
modelled as `Except.error`; the branches below the failing lookup are
unreachable and not modelled further. -/
def act (m : MathOps) (rd : Road) (s : VehState) : Except String VehState :=
  let _neighbours := rd.neighbour_vehicles s none
  let s₁ := change_lane_policy m rd s
  let _steering := ControlledVehicle.steering_control m rd s₁ s₁.target_lane_index
  if "controller" ∈ attributeNames then
    Except.error "AttributeError: CONTROLLER_IDM"
  else
    Except.error "AttributeError: controller"

end IDMVehicle

/-! ### Concrete fixtures for witnesses and counterexamples -/

/-- A concrete lane whose projection is the identity and which is reachable
from everywhere. -/
def laneTest : Lane :=
  { local_coordinates := fun p => p
    heading_at := fun _ => 0
    is_reachable_from := fun _ => true }

/-- A concrete interpretation of the abstract numeric primitives. -/
def mTest : MathOps :=
  { eps := 1/100
    pi := 3
    sqrt := fun _ => 1
    cos := fun _ => 1
    sin := fun _ => 0
    tan := fun x => x
    arctan := fun x => x
    exp := fun _ => 1
    wrap_to_pi := fun x => x
    do_every := fun _ _ => false }

/-- A concrete two-lane road with no traffic. -/
def roadTest : Road :=
  { lane_count := 2
    lane_at := fun _ => laneTest
    get_lane_index := fun _ => 0
    neighbour_vehicles := fun _ _ => (none, none) }

/-- A concrete vehicle state, matching a freshly constructed vehicle at the
origin. -/
def baseState : VehState :=
  { position := (0, 0)
    heading := 0
    steering_angle := 0
    velocity := 0
    lane_index := 0
    lane := laneTest
    color := (200, 200, 0)
    action := { steering := 0, acceleration := 0 }
    crashed := false
    target_lane_index := 0
    target_velocity := 0
    velocity_index := 0
    timer := 0
    length := 5
    width := 2 }

/-! ### C1 -/

/-- A crashed controlled vehicle, target velocity 20 m/s. -/
def sC1 : VehState := { baseState with crashed := true, target_velocity := 20 }

/-- `MDPVehicle` parameters with three allowed speeds between 25 and 35 m/s. -/
def pC6 : MDPParams := ⟨3, 25, 35⟩

/-- A vehicle whose actual velocity (35 m/s) is far above the speed its
`velocity_index` (0) denotes. -/
def sC6 : VehState := { baseState with velocity := 35, velocity_index := 0 }

/-- A concrete moving, steering, non-crashed vehicle. -/
def sC9 : VehState :=
  { baseState with
    velocity := 2
    steering_angle := 1/2
    action := { steering := 1/4, acceleration := 3 } }

/-- An ego vehicle at 10 m/s with desired velocity 20 m/s. -/
def egoC3 : VehState := { baseState with velocity := 10, target_velocity := 20 }

/-- The new-lane follower for the C4 witness: stopped, 1 m behind the ego
vehicle's rear bumper. -/
def followerC4 : VehState := { baseState with velocity := 0, target_velocity := 20 }

/-- The ego vehicle for the C4 witness, 6 m ahead of the follower. -/
def sC4 : VehState :=
  { baseState with position := (6, 0), velocity := 20, target_velocity := 20 }

/-- A road whose lane-specific neighbour query reports `followerC4` behind. -/
def roadC4 : Road :=
  { lane_count := 2
    lane_at := fun _ => laneTest
    get_lane_index := fun _ => 0
    neighbour_vehicles := fun _ lane =>
      match lane with
      | some _ => (none, some followerC4)
      | none => (none, none) }

/-- C1 counterexample: `ControlledVehicle.act` never consults `crashed`, so a
crashed vehicle's `act("FASTER")` still adds 5 to `target_velocity` —
refuting the claim that once `crashed == true` no `act(intent)` changes
`target_lane_index` or `target_velocity`. -/
theorem C1_counterexample_crashed_act_updates_target :
    sC1.crashed = true ∧ sC1.target_velocity = 20 ∧
    (ControlledVehicle.act mTest roadTest (some .FASTER) sC1).target_velocity = 25 := by
  refine ⟨rfl, rfl, ?_⟩
  norm_num [ControlledVehicle.act, sC1, baseState]

/-- C1 (amended): the `crashed` flag does not gate `act` at all — for every
intent, `ControlledVehicle.act` and `MDPVehicle.act` update
`target_lane_index` and `target_velocity` identically whatever the value of
`crashed`, and leave `crashed` itself untouched.  (The flag only alters
`step`, which overrides the stored low-level command with randomized erratic
motion.) -/
theorem C1_amended_act_is_independent_of_crashed (m : MathOps) (rd : Road)
    (p : MDPParams) (a : Option Intent) (s : VehState) (c : Bool) :
    ((ControlledVehicle.act m rd a { s with crashed := c }).target_lane_index =
        (ControlledVehicle.act m rd a s).target_lane_index ∧
      (ControlledVehicle.act m rd a { s with crashed := c }).target_velocity =
        (ControlledVehicle.act m rd a s).target_velocity ∧
      (ControlledVehicle.act m rd a { s with crashed := c }).crashed = c) ∧
    ((MDPVehicle.act p m rd a { s with crashed := c }).target_lane_index =
        (MDPVehicle.act p m rd a s).target_lane_index ∧
      (MDPVehicle.act p m rd a { s with crashed := c }).target_velocity =
        (MDPVehicle.act p m rd a s).target_velocity ∧
      (MDPVehicle.act p m rd a { s with crashed := c }).crashed = c) := by
  rcases a with _ | i
  · exact ⟨⟨rfl, rfl, rfl⟩, ⟨rfl, rfl, rfl⟩⟩
  · cases i <;>
      refine ⟨⟨?_, ?_, ?_⟩, ⟨?_, ?_, ?_⟩⟩ <;>
      simp only [ControlledVehicle.act, MDPVehicle.act] <;>
      split <;> rfl

/-! ### C2 -/

/-- C2: `IDMVehicle.act` always fails with an attribute-lookup error: the
source reads `self.controller`, which no class in the file ever defines, so
the autonomous policy never completes and never issues a command pair. -/
theorem C2_idm_act_always_raises (m : MathOps) (rd : Road) (s : VehState) :
    IDMVehicle.act m rd s = Except.error "AttributeError: controller" := by
  simp only [IDMVehicle.act]
  rw [if_neg]
  decide

/-! ### C5 -/

/-- C5: lane-change intents of `ControlledVehicle.act`.  `LANE_RIGHT` moves
`target_lane_index` to `lane_index + 1` exactly when that index is below the
lane count and the road reports the lane reachable; `LANE_LEFT` moves it to
`lane_index - 1` exactly when that index is nonnegative and reachable.  In
every case — success or silent drop — the resulting state equals a plain
`act(None)` on the state with the (possibly unchanged) target lane, so a
rejected request changes nothing and signals nothing (`act` is total). -/
theorem C5_lane_change_guards (m : MathOps) (rd : Road) (s : VehState) :
    (ControlledVehicle.act m rd (some .LANE_RIGHT) s =
      ControlledVehicle.act m rd none
        { s with target_lane_index :=
            if s.lane_index + 1 < (rd.lane_count : ℤ) ∧
                (rd.lane_at (s.lane_index + 1)).is_reachable_from s.position = true
            then s.lane_index + 1 else s.target_lane_index }) ∧
    (ControlledVehicle.act m rd (some .LANE_LEFT) s =
      ControlledVehicle.act m rd none
        { s with target_lane_index :=
            if 0 ≤ s.lane_index - 1 ∧
                (rd.lane_at (s.lane_index - 1)).is_reachable_from s.position = true
            then s.lane_index - 1 else s.target_lane_index }) := by
  constructor <;> · simp only [ControlledVehicle.act]; split <;> rfl

/-! ### C6 -/

/-- C6 counterexample: with three allowed speeds, `act("FASTER")` on a
vehicle with `velocity_index = 0` but actual velocity 35 m/s yields
`velocity_index = 2`, not the claimed clamped `previous + 1 = 1`: the source
re-indexes from `speed_to_index(self.velocity)`, not from the previous
`velocity_index`. -/
theorem C6_counterexample_faster_ignores_previous_index :
    (MDPVehicle.act pC6 mTest roadTest (some .FASTER) sC6).velocity_index = 2 ∧
    constrainInt (sC6.velocity_index + 1) 0 ((pC6.SPEED_COUNT : ℤ) - 1) = 1 := by
  constructor
  · norm_num [MDPVehicle.act, MDPVehicle.speed_to_index, np_round, constrainInt,
      ControlledVehicle.act, sC6, pC6, baseState]
  · decide

/-- C6 (amended): `act("FASTER")` sets `velocity_index` to
`speed_to_index(velocity) + 1` and `act("SLOWER")` to
`speed_to_index(velocity) - 1` — the index of the *current actual velocity*
plus or minus one, clamped to `[0, SPEED_COUNT - 1]`; the previous
`velocity_index` is ignored. -/
theorem C6_amended_faster_slower_reindex_from_velocity (p : MDPParams)
    (m : MathOps) (rd : Road) (s : VehState) :
    (MDPVehicle.act p m rd (some .FASTER) s).velocity_index =
      constrainInt (MDPVehicle.speed_to_index p s.velocity + 1) 0
        ((p.SPEED_COUNT : ℤ) - 1) ∧
    (MDPVehicle.act p m rd (some .SLOWER) s).velocity_index =
      constrainInt (MDPVehicle.speed_to_index p s.velocity - 1) 0
        ((p.SPEED_COUNT : ℤ) - 1) := by
  exact ⟨rfl, rfl⟩

/-! ### C7 -/

/-- C7: after any `MDPVehicle.act` (any intent or none), `velocity_index`
lies in `[0, SPEED_COUNT - 1]` and `target_velocity` equals
`index_to_speed(velocity_index)`: the source unconditionally clamps the index
and recomputes the target before handing over to the low-level control, which
touches neither field. -/
theorem C7_mdp_act_invariant (p : MDPParams) (m : MathOps) (rd : Road)
    (a : Option Intent) (s : VehState) (h : 1 ≤ p.SPEED_COUNT) :
    0 ≤ (MDPVehicle.act p m rd a s).velocity_index ∧
    (MDPVehicle.act p m rd a s).velocity_index ≤ (p.SPEED_COUNT : ℤ) - 1 ∧
    (MDPVehicle.act p m rd a s).target_velocity =
      MDPVehicle.index_to_speed p (MDPVehicle.act p m rd a s).velocity_index := by
  have hc : (0 : ℤ) ≤ (p.SPEED_COUNT : ℤ) - 1 := by
    have : (1 : ℤ) ≤ (p.SPEED_COUNT : ℤ) := by exact_mod_cast h
    omega
  have key : ∀ x : ℤ, 0 ≤ constrainInt x 0 ((p.SPEED_COUNT : ℤ) - 1) ∧
      constrainInt x 0 ((p.SPEED_COUNT : ℤ) - 1) ≤ (p.SPEED_COUNT : ℤ) - 1 := by
    intro x
    exact ⟨le_min (le_max_right _ _) hc, min_le_right _ _⟩
  rcases a with _ | i
  · exact ⟨(key _).1, (key _).2, rfl⟩
  · cases i <;>
      · simp only [MDPVehicle.act, ControlledVehicle.act]
        exact ⟨(key _).1, (key _).2, trivial⟩

/-- C7 witness: the invariant at the default parameters, on a concrete
vehicle after `act("FASTER")`. -/
theorem C7_mdp_act_invariant_witness :
    1 ≤ MDPParams.default.SPEED_COUNT ∧
    (0 ≤ (MDPVehicle.act MDPParams.default mTest roadTest (some .FASTER) sC6).velocity_index ∧
     (MDPVehicle.act MDPParams.default mTest roadTest (some .FASTER) sC6).velocity_index ≤
       (MDPParams.default.SPEED_COUNT : ℤ) - 1 ∧
     (MDPVehicle.act MDPParams.default mTest roadTest (some .FASTER) sC6).target_velocity =
       MDPVehicle.index_to_speed MDPParams.default
         (MDPVehicle.act MDPParams.default mTest roadTest (some .FASTER) sC6).velocity_index) :=
  ⟨by decide, C7_mdp_act_invariant MDPParams.default mTest roadTest (some .FASTER) sC6 (by decide)⟩

/-! ### C9 -/

/-- C9: for a non-crashed vehicle, `step(dt)` is exactly one explicit-Euler
update in the source's order — position from the pre-update velocity and
heading, heading from the pre-update steering angle, the steering angle
relaxed by `dt/τ` toward the tangent of the commanded steering, velocity from
the commanded acceleration, and `lane_index` recomputed from the new
position (with the stored command left untouched). -/
theorem C9_step_euler_update (m : MathOps) (rd : Road) (rs ra dt : ℚ)
    (s : VehState) (h : s.crashed = false) :
    (Vehicle.step m rd rs ra dt s).position =
      (s.position.1 + s.velocity * m.cos s.heading * dt,
       s.position.2 + s.velocity * m.sin s.heading * dt) ∧
    (Vehicle.step m rd rs ra dt s).heading =
      s.heading + s.velocity * s.steering_angle / Vehicle.LENGTH * dt ∧
    (Vehicle.step m rd rs ra dt s).steering_angle =
      s.steering_angle + dt / Vehicle.STEERING_TAU *
        (m.tan s.action.steering - s.steering_angle) ∧
    (Vehicle.step m rd rs ra dt s).velocity =
      s.velocity + s.action.acceleration * dt ∧
    (Vehicle.step m rd rs ra dt s).lane_index =
      rd.get_lane_index (Vehicle.step m rd rs ra dt s).position ∧
    (Vehicle.step m rd rs ra dt s).action = s.action := by
  simp only [Vehicle.step, h, Bool.false_eq_true, if_false, and_true, true_and]
  ring

/-- C9 witness: the Euler update at a concrete state and timestep. -/
theorem C9_step_euler_update_witness :
    sC9.crashed = false ∧
    ((Vehicle.step mTest roadTest 0 0 1 sC9).position =
      (sC9.position.1 + sC9.velocity * mTest.cos sC9.heading * 1,
       sC9.position.2 + sC9.velocity * mTest.sin sC9.heading * 1) ∧
    (Vehicle.step mTest roadTest 0 0 1 sC9).heading =
      sC9.heading + sC9.velocity * sC9.steering_angle / Vehicle.LENGTH * 1 ∧
    (Vehicle.step mTest roadTest 0 0 1 sC9).steering_angle =
      sC9.steering_angle + 1 / Vehicle.STEERING_TAU *
        (mTest.tan sC9.action.steering - sC9.steering_angle) ∧
    (Vehicle.step mTest roadTest 0 0 1 sC9).velocity =
      sC9.velocity + sC9.action.acceleration * 1 ∧
    (Vehicle.step mTest roadTest 0 0 1 sC9).lane_index =
      roadTest.get_lane_index (Vehicle.step mTest roadTest 0 0 1 sC9).position ∧
    (Vehicle.step mTest roadTest 0 0 1 sC9).action = sC9.action) :=
  ⟨rfl, C9_step_euler_update mTest roadTest 0 0 1 sC9 rfl⟩

/-! ### C3 -/

/-- C3: with no front vehicle and a desired velocity that the `not_zero`
guard leaves untouched (magnitude above the floor), the IDM acceleration is
exactly the free-road term `ACC_MAX * (1 - (v / v_target)^DELTA)`, with no
gap-dependent braking contribution. -/
theorem C3_idm_free_road (m : MathOps) (ego : VehState)
    (h : m.eps < |ego.target_velocity|) :
    IDMVehicle.idm m (some ego) none =
      IDMVehicle.ACC_MAX *
        (1 - (ego.velocity / ego.target_velocity) ^ IDMVehicle.DELTA) := by
  simp only [IDMVehicle.idm, not_zero, if_pos h]

/-- C3 witness: the free-road IDM acceleration at a concrete ego vehicle. -/
theorem C3_idm_free_road_witness :
    mTest.eps < |egoC3.target_velocity| ∧
    IDMVehicle.idm mTest (some egoC3) none =
      IDMVehicle.ACC_MAX *
        (1 - (egoC3.velocity / egoC3.target_velocity) ^ IDMVehicle.DELTA) :=
  ⟨by norm_num [mTest, egoC3, baseState], C3_idm_free_road mTest egoC3 (by norm_num [mTest, egoC3, baseState])⟩

/-! ### C4 -/

/-- C4: the MOBIL decision rejects a lane change whenever the predicted IDM
acceleration of the new-lane follower, with the ego vehicle inserted as its
front vehicle, is strictly below `-LANE_CHANGE_MAX_BRAKING_IMPOSED` — the
safety veto fires before the acceleration-gain criterion is ever consulted,
so the ego vehicle's own gain is irrelevant. -/
theorem C4_mobil_rejects_unsafe_braking (m : MathOps) (rd : Road)
    (s : VehState) (lane_index : ℤ)
    (h : IDMVehicle.new_following_pred_a m rd s lane_index <
      -IDMVehicle.LANE_CHANGE_MAX_BRAKING_IMPOSED) :
    IDMVehicle.mobil m rd s lane_index = false := by
  simp only [IDMVehicle.new_following_pred_a] at h
  simp only [IDMVehicle.mobil]
  split <;> rfl

/-- C4 witness: with a 1 m net gap the follower's predicted IDM acceleration
is -72 m/s², far below the -2 m/s² threshold, and `mobil` rejects. -/
theorem C4_mobil_rejects_unsafe_braking_witness :
    IDMVehicle.new_following_pred_a mTest roadC4 sC4 1 <
      -IDMVehicle.LANE_CHANGE_MAX_BRAKING_IMPOSED ∧
    IDMVehicle.mobil mTest roadC4 sC4 1 = false :=
  ⟨by
    norm_num [IDMVehicle.new_following_pred_a, IDMVehicle.idm, roadC4, sC4,
      followerC4, baseState, mTest, laneTest, not_zero,
      Vehicle.lane_distance_to_vehicle, IDMVehicle.ACC_MAX, IDMVehicle.BRAKE_ACC,
      IDMVehicle.DISTANCE_WANTED, IDMVehicle.TIME_WANTED, IDMVehicle.DELTA,
      IDMVehicle.LANE_CHANGE_MAX_BRAKING_IMPOSED],
   C4_mobil_rejects_unsafe_braking mTest roadC4 sC4 1 (by
    norm_num [IDMVehicle.new_following_pred_a, IDMVehicle.idm, roadC4, sC4,
      followerC4, baseState, mTest, laneTest, not_zero,
      Vehicle.lane_distance_to_vehicle, IDMVehicle.ACC_MAX, IDMVehicle.BRAKE_ACC,
      IDMVehicle.DISTANCE_WANTED, IDMVehicle.TIME_WANTED, IDMVehicle.DELTA,
      IDMVehicle.LANE_CHANGE_MAX_BRAKING_IMPOSED])⟩

/-! ### C10 -/

/-- C10: `check_collision` is symmetric — swapping the arguments swaps the
result pair; when neither vehicle was already crashed, both crashed flags
come out true exactly when the distance between the positions (the
interpreted square root of the squared Euclidean norm) is below the sum of
the two half-widths; and a self-comparison changes nothing. -/
theorem C10_check_collision_symmetric (m : MathOps) (a b : VehState) :
    (Vehicle.check_collision m false a b =
      ((Vehicle.check_collision m false b a).2,
       (Vehicle.check_collision m false b a).1)) ∧
    (a.crashed = false → b.crashed = false →
      (((Vehicle.check_collision m false a b).1.crashed = true ↔
          m.sqrt ((a.position.1 - b.position.1) ^ 2 +
            (a.position.2 - b.position.2) ^ 2) < a.width / 2 + b.width / 2) ∧
        ((Vehicle.check_collision m false a b).2.crashed = true ↔
          m.sqrt ((a.position.1 - b.position.1) ^ 2 +
            (a.position.2 - b.position.2) ^ 2) < a.width / 2 + b.width / 2))) ∧
    Vehicle.check_collision m true a a = (a, a) := by
  have harg : (b.position.1 - a.position.1) ^ 2 + (b.position.2 - a.position.2) ^ 2 =
      (a.position.1 - b.position.1) ^ 2 + (a.position.2 - b.position.2) ^ 2 := by
    ring
  have hsum : b.width / 2 + a.width / 2 = a.width / 2 + b.width / 2 := by ring
  refine ⟨?_, ?_, ?_⟩
  · simp only [Vehicle.check_collision, Vehicle.ENABLE_CRASHES, not_true,
      if_false, Bool.false_eq_true, harg, hsum]
    split <;> rfl
  · intro ha hb
    constructor <;>
      · simp only [Vehicle.check_collision, Vehicle.ENABLE_CRASHES, not_true,
          if_false, Bool.false_eq_true]
        split <;> simp_all
  · simp only [Vehicle.check_collision, Vehicle.ENABLE_CRASHES, not_true,
      if_false, Bool.false_eq_true, if_true]

/-- C10 witness: two distinct vehicle objects with identical state at the
origin collide (interpreted distance 1 < 2), and both flags flip. -/
theorem C10_check_collision_symmetric_witness :
    baseState.crashed = false ∧
    ((Vehicle.check_collision mTest false baseState baseState =
      ((Vehicle.check_collision mTest false baseState baseState).2,
       (Vehicle.check_collision mTest false baseState baseState).1)) ∧
    (baseState.crashed = false → baseState.crashed = false →
      (((Vehicle.check_collision mTest false baseState baseState).1.crashed = true ↔
          mTest.sqrt ((baseState.position.1 - baseState.position.1) ^ 2 +
            (baseState.position.2 - baseState.position.2) ^ 2) <
            baseState.width / 2 + baseState.width / 2) ∧
        ((Vehicle.check_collision mTest false baseState baseState).2.crashed = true ↔
          mTest.sqrt ((baseState.position.1 - baseState.position.1) ^ 2 +
            (baseState.position.2 - baseState.position.2) ^ 2) <
            baseState.width / 2 + baseState.width / 2))) ∧
    Vehicle.check_collision mTest true baseState baseState = (baseState, baseState)) :=
  ⟨rfl, C10_check_collision_symmetric mTest baseState baseState⟩

/-! ### C8 -/

/-- Half-to-even rounding lands within half a unit of its argument. -/
theorem abs_np_round_sub_le_half (y : ℚ) : |(np_round y : ℚ) - y| ≤ 1/2 := by
  have h1 : (⌊y⌋ : ℚ) ≤ y := Int.floor_le y
  have h2 : y < ⌊y⌋ + 1 := Int.lt_floor_add_one y
  unfold np_round
  split_ifs <;> push_cast <;> rw [abs_le] <;> constructor <;> linarith

/-- Half-to-even rounding yields a nearest integer: no integer is strictly
closer. -/
theorem np_round_nearest (y : ℚ) (j : ℤ) :
    |(np_round y : ℚ) - y| ≤ |(j : ℚ) - y| := by
  have h1 : (⌊y⌋ : ℚ) ≤ y := Int.floor_le y
  have h2 : y < ⌊y⌋ + 1 := Int.lt_floor_add_one y
  rcases le_or_lt j ⌊y⌋ with hj | hj
  · have hj' : (j : ℚ) ≤ (⌊y⌋ : ℚ) := by exact_mod_cast hj
    rw [abs_of_nonpos (by linarith : (j : ℚ) - y ≤ 0)]
    unfold np_round
    split_ifs <;> push_cast <;> rw [abs_le] <;> constructor <;> linarith
  · have hj' : (⌊y⌋ : ℚ) + 1 ≤ (j : ℚ) := by exact_mod_cast hj
    rw [abs_of_nonneg (by linarith : 0 ≤ (j : ℚ) - y)]
    unfold np_round
    split_ifs <;> push_cast <;> rw [abs_le] <;> constructor <;> linarith

/-- Half-to-even rounding of a nonnegative argument is nonnegative. -/
theorem np_round_nonneg (y : ℚ) (h : 0 ≤ y) : 0 ≤ np_round y := by
  have hf : 0 ≤ ⌊y⌋ := Int.floor_nonneg.2 h
  unfold np_round
  split_ifs <;> omega

/-- Half-to-even rounding never overshoots an integer upper bound. -/
theorem np_round_le (y : ℚ) (n : ℤ) (h : y ≤ (n : ℚ)) : np_round y ≤ n := by
  have h1 : (⌊y⌋ : ℚ) ≤ y := Int.floor_le y
  have hfn : ⌊y⌋ ≤ n := by
    have := Int.floor_mono h
    simpa using this
  unfold np_round
  split_ifs with ha hb hc
  · exact hfn
  · by_contra hcon
    have hn : n = ⌊y⌋ := by omega
    rw [hn] at h
    linarith
  · exact hfn
  · by_contra hcon
    have hn : n = ⌊y⌋ := by omega
    rw [hn] at h
    linarith

/-- C8: the composition `index_to_speed ∘ speed_to_index`.  When
`SPEED_COUNT = 1` it returns `SPEED_MIN` for every input.  When
`SPEED_COUNT ≥ 2` and `v` lies in `[SPEED_MIN, SPEED_MAX]`, the produced
index is a valid table index, the returned speed is at least as close to `v`
as every table entry, and the error is at most half the spacing
`(SPEED_MAX - SPEED_MIN)/(SPEED_COUNT - 1)` between consecutive entries. -/
theorem C8_round_trip_nearest (p : MDPParams) (v : ℚ)
    (hlt : p.SPEED_MIN < p.SPEED_MAX) :
    (p.SPEED_COUNT = 1 →
      MDPVehicle.index_to_speed p (MDPVehicle.speed_to_index p v) = p.SPEED_MIN) ∧
    (2 ≤ p.SPEED_COUNT → p.SPEED_MIN ≤ v → v ≤ p.SPEED_MAX →
      (0 ≤ MDPVehicle.speed_to_index p v ∧
        MDPVehicle.speed_to_index p v ≤ (p.SPEED_COUNT : ℤ) - 1) ∧
      (∀ j : ℤ,
        |MDPVehicle.index_to_speed p (MDPVehicle.speed_to_index p v) - v| ≤
          |MDPVehicle.index_to_speed p j - v|) ∧
      |MDPVehicle.index_to_speed p (MDPVehicle.speed_to_index p v) - v| ≤
        (p.SPEED_MAX - p.SPEED_MIN) / ((p.SPEED_COUNT : ℚ) - 1) / 2) := by
  constructor
  · intro h1
    simp [MDPVehicle.index_to_speed, h1]
  · intro h2 hv1 hv2
    have hc1 : 1 < p.SPEED_COUNT := by omega
    have hcq : (2 : ℚ) ≤ (p.SPEED_COUNT : ℚ) := by exact_mod_cast h2
    have hd : (0 : ℚ) < p.SPEED_MAX - p.SPEED_MIN := by linarith
    have hd0 : p.SPEED_MAX - p.SPEED_MIN ≠ 0 := ne_of_gt hd
    have hqpos : (0 : ℚ) < (p.SPEED_COUNT : ℚ) - 1 := by linarith
    have hq0 : (p.SPEED_COUNT : ℚ) - 1 ≠ 0 := ne_of_gt hqpos
    set y : ℚ := (v - p.SPEED_MIN) / (p.SPEED_MAX - p.SPEED_MIN) *
      ((p.SPEED_COUNT : ℚ) - 1) with hydef
    have hsti : MDPVehicle.speed_to_index p v = np_round y := rfl
    have hy0 : 0 ≤ y := mul_nonneg (div_nonneg (by linarith) hd.le) (by linarith)
    have hy1 : y ≤ (p.SPEED_COUNT : ℚ) - 1 := by
      have hle : (v - p.SPEED_MIN) / (p.SPEED_MAX - p.SPEED_MIN) ≤ 1 :=
        (div_le_one hd).2 (by linarith)
      nlinarith
    have key : ∀ i : ℤ, MDPVehicle.index_to_speed p i - v =
        ((i : ℚ) - y) * ((p.SPEED_MAX - p.SPEED_MIN) / ((p.SPEED_COUNT : ℚ) - 1)) := by
      intro i
      simp only [MDPVehicle.index_to_speed, if_pos hc1, hydef]
      field_simp
      ring
    have hsp : (0 : ℚ) < (p.SPEED_MAX - p.SPEED_MIN) / ((p.SPEED_COUNT : ℚ) - 1) :=
      div_pos hd hqpos
    refine ⟨⟨?_, ?_⟩, ?_, ?_⟩
    · rw [hsti]
      exact np_round_nonneg y hy0
    · rw [hsti]
      apply np_round_le
      push_cast
      linarith
    · intro j
      rw [hsti, key, key, abs_mul, abs_mul, abs_of_pos hsp]
      exact mul_le_mul_of_nonneg_right (np_round_nearest y j) hsp.le
    · rw [hsti, key, abs_mul, abs_of_pos hsp]
      calc |(np_round y : ℚ) - y| *
            ((p.SPEED_MAX - p.SPEED_MIN) / ((p.SPEED_COUNT : ℚ) - 1))
          ≤ (1/2) * ((p.SPEED_MAX - p.SPEED_MIN) / ((p.SPEED_COUNT : ℚ) - 1)) :=
            mul_le_mul_of_nonneg_right (abs_np_round_sub_le_half y) hsp.le
        _ = (p.SPEED_MAX - p.SPEED_MIN) / ((p.SPEED_COUNT : ℚ) - 1) / 2 := by
            ring

/-- C8 witness: the round trip at three allowed speeds `{25, 30, 35}` and
input 29 m/s. -/
theorem C8_round_trip_nearest_witness :
    pC6.SPEED_MIN < pC6.SPEED_MAX ∧
    ((pC6.SPEED_COUNT = 1 →
      MDPVehicle.index_to_speed pC6 (MDPVehicle.speed_to_index pC6 29) = pC6.SPEED_MIN) ∧
    (2 ≤ pC6.SPEED_COUNT → pC6.SPEED_MIN ≤ 29 → (29:ℚ) ≤ pC6.SPEED_MAX →
      (0 ≤ MDPVehicle.speed_to_index pC6 29 ∧
        MDPVehicle.speed_to_index pC6 29 ≤ (pC6.SPEED_COUNT : ℤ) - 1) ∧
      (∀ j : ℤ,
        |MDPVehicle.index_to_speed pC6 (MDPVehicle.speed_to_index pC6 29) - 29| ≤
          |MDPVehicle.index_to_speed pC6 j - 29|) ∧
      |MDPVehicle.index_to_speed pC6 (MDPVehicle.speed_to_index pC6 29) - 29| ≤
        (pC6.SPEED_MAX - pC6.SPEED_MIN) / ((pC6.SPEED_COUNT : ℚ) - 1) / 2)) :=
  ⟨by norm_num [pC6], C8_round_trip_nearest pC6 29 (by norm_num [pC6])⟩
